import Mathlib

/-!
Verification of the CloFind upload page core logic
(`src/app/upload/page.tsx`): coordinate mapping for the crop
selection, search-request orchestration with endpoint fallback, and
the result pipeline (dedupe, sort, filter, paginate).

JavaScript numbers are modelled as rationals (`ℚ`); the sentinel
values `Infinity` and `-Infinity` used by the sort and filter stages
are modelled by `WithTop ℚ` and `WithBot ℚ`.  `Math.round` rounds
half toward positive infinity, which is `⌊q + 1/2⌋`.
-/

namespace CloFind

/-- JavaScript `Math.round`: round to nearest, halves toward positive
infinity. -/
def jsRound (q : ℚ) : ℤ := ⌊q + 1/2⌋

/-- JavaScript `a || b` on numbers, where the only falsy value that
occurs here is `0` (models the rendered-size fallback chain in
`toPixelCrop`). -/
def jsOr (a b : ℚ) : ℚ := if a = 0 then b else a

/-- The `unit` field of a `react-image-crop` selection:
percentage-of-natural or rendered-pixel units. -/
inductive CropUnit where
  | pct
  | px
deriving DecidableEq, Repr

/-- A crop selection (`Crop` in the source): unit plus optional
coordinates (the source reads them with `?? 0` defaults). -/
structure Crop where
  unit : CropUnit
  x : Option ℚ
  y : Option ℚ
  width : Option ℚ
  height : Option ℚ
deriving DecidableEq, Repr

/-- A resolved pixel rectangle (`PixelCrop` in the source); all four
coordinates are whole numbers produced by `Math.round`. -/
structure PixelCrop where
  x : ℤ
  y : ℤ
  width : ℤ
  height : ℤ
deriving DecidableEq, Repr

/-- The fields of the `HTMLImageElement` read by `toPixelCrop`:
intrinsic natural size, layout size (`img.width` / `img.height`) and
bounding-client-rect size (the two fallbacks for the rendered size). -/
structure ImgElement where
  naturalWidth : ℚ
  naturalHeight : ℚ
  width : ℚ
  height : ℚ
  rectWidth : ℚ
  rectHeight : ℚ
deriving DecidableEq, Repr

/-- `toPixelCrop` (page.tsx lines 26-40): convert a selection in
percentage or rendered-pixel units to a natural-pixel rectangle.
Rendered dimensions fall back through `img.width ||
getBoundingClientRect().width || naturalWidth`; the result is rounded
to whole pixels, then `x,y` are clamped to `≥ 0` and `width,height`
to `≥ 1`. -/
def toPixelCrop (c : Crop) (img : ImgElement) : PixelCrop :=
  let naturalW := img.naturalWidth
  let naturalH := img.naturalHeight
  let renderedW := jsOr img.width (jsOr img.rectWidth naturalW)
  let renderedH := jsOr img.height (jsOr img.rectHeight naturalH)
  let scaleX := naturalW / renderedW
  let scaleY := naturalH / renderedH
  let rx := c.x.getD 0
  let ry := c.y.getD 0
  let rw := c.width.getD 0
  let rh := c.height.getD 0
  let x := jsRound (if c.unit = CropUnit.pct then rx / 100 * naturalW else rx * scaleX)
  let y := jsRound (if c.unit = CropUnit.pct then ry / 100 * naturalH else ry * scaleY)
  let w := jsRound (if c.unit = CropUnit.pct then rw / 100 * naturalW else rw * scaleX)
  let h := jsRound (if c.unit = CropUnit.pct then rh / 100 * naturalH else rh * scaleY)
  { x := max 0 x, y := max 0 y, width := max 1 w, height := max 1 h }

/-- `pixelToPercentCropWithSize` (page.tsx lines 42-50): re-express a
pixel rectangle as a percentage selection over the given natural
size. -/
def pixelToPercentCropWithSize (px : PixelCrop) (naturalW naturalH : ℚ) : Crop :=
  { unit := CropUnit.pct
    x := some ((px.x : ℚ) / naturalW * 100)
    y := some ((px.y : ℚ) / naturalH * 100)
    width := some ((px.width : ℚ) / naturalW * 100)
    height := some ((px.height : ℚ) / naturalH * 100) }

/-- One search result (`Hit` in the source).  The JSON fields that
the source guards with `??` at their use sites (`score`, `price`,
`merchant`, `deeplink`, `image_url`) and the nullable wire fields are
modelled as `Option`; `product_id` is an integer and `label` a plain
string. -/
structure Hit where
  product_id : ℤ
  score : Option ℚ
  label : String
  title : Option String
  price : Option ℚ
  currency : Option String
  merchant : Option String
  deeplink : Option String
  image_url : Option String
deriving DecidableEq, Repr

/-- The parsed success body (`SearchResponse` in the source):
an optional `results` array. -/
structure SearchResponse where
  results : Option (List Hit)
deriving DecidableEq, Repr

/-- An HTTP response as observed by `runSearchByUpload`: status code,
status text, body text, and the JSON parse of the body (used only on
2xx). -/
structure HttpResp where
  status : ℕ
  statusText : String
  body : String
  json : SearchResponse
deriving DecidableEq, Repr

/-- Outcome of one `fetch` call: a transport-level failure (the
`catch` around `fetch`) or a response. -/
inductive FetchResult where
  | netFail
  | resp (r : HttpResp)
deriving DecidableEq, Repr

/-- The error taxonomy of `runSearchByUpload`, one constructor per
`throw` site, carrying exactly the data the thrown message
interpolates. -/
inductive SearchError where
  | configError
  | networkError
  | serviceUnavailable
  | httpError (status : ℕ) (statusText : String) (body : String)
  | notFoundAll (lastBody : String)
deriving DecidableEq, Repr

/-- `Response.ok`: status in the range 200-299. -/
def respOk (r : HttpResp) : Bool := 200 ≤ r.status && r.status < 300

/-- The ordered candidate endpoint paths (page.tsx line 222). -/
def searchPaths : List String := ["/search/by-upload", "/search/image"]

/-- The `for (const p of paths)` fallback loop of `runSearchByUpload`
(page.tsx lines 222-236).  `lastText` is the running last diagnostic
body.  Returns the result together with the list of paths actually
fetched, in order.  2xx returns the parsed body; 503 and any non-2xx
other than 404 stop immediately; 404 records the body and falls
through to the next candidate; an exhausted list fails with the 404
diagnostic. -/
def tryPaths (net : String → FetchResult) (base : String) :
    List String → String → Except SearchError SearchResponse × List String
  | [], lastText => (Except.error (SearchError.notFoundAll lastText), [])
  | p :: rest, _ =>
    match net (base ++ p) with
    | FetchResult.netFail => (Except.error SearchError.networkError, [p])
    | FetchResult.resp r =>
      if respOk r then (Except.ok r.json, [p])
      else if r.status = 503 then (Except.error SearchError.serviceUnavailable, [p])
      else if r.status ≠ 404 then
        (Except.error (SearchError.httpError r.status r.statusText r.body), [p])
      else
        let next := tryPaths net base rest r.body
        (next.1, p :: next.2)

/-- `process.env.NEXT_PUBLIC_API_BASE ?? process.env.NEXT_PUBLIC_BACKEND_URL`
(page.tsx line 215): nullish coalescing returns the first variable
whenever it is present, whatever its value. -/
def resolveBase (apiBase backendUrl : Option String) : Option String :=
  match apiBase with
  | some v => some v
  | none => backendUrl

/-- The resolution rule as the spec words it, for comparison: the
first non-empty value among the two configuration variables. -/
def resolveBaseSpec (apiBase backendUrl : Option String) : Option String :=
  if apiBase.getD "" ≠ "" then apiBase
  else if backendUrl.getD "" ≠ "" then backendUrl
  else none

/-- `runSearchByUpload` (page.tsx lines 210-240), over an abstract
network `net` mapping a URL to a fetch outcome.  Resolves the base
address, throws `ConfigError` on a falsy result (`!base`: absent or
empty string) before any fetch, otherwise runs the candidate loop.
The second component is the list of paths fetched. -/
def runSearchByUpload (apiBase backendUrl : Option String)
    (net : String → FetchResult) :
    Except SearchError SearchResponse × List String :=
  match resolveBase apiBase backendUrl with
  | none => (Except.error SearchError.configError, [])
  | some base =>
    if base = "" then (Except.error SearchError.configError, [])
    else tryPaths net base searchPaths ""

/-- The dedupe key (page.tsx line 313):
`product_id-deeplink-image_url` joined with dashes, absent fields
becoming the empty string. -/
def dedupeKey (h : Hit) : String :=
  toString h.product_id ++ "-" ++ h.deeplink.getD "" ++ "-" ++ h.image_url.getD ""

/-- The triple the spec says the dedupe key is formed from. -/
def dedupeTriple (h : Hit) : ℤ × String × String :=
  (h.product_id, h.deeplink.getD "", h.image_url.getD "")

/-- The `results.filter` pass of `dedupedResults` (page.tsx lines
310-318) with its mutable `seen` set made explicit. -/
def dedupedResultsAux : List Hit → List String → List Hit
  | [], _ => []
  | h :: t, seen =>
    if dedupeKey h ∈ seen then dedupedResultsAux t seen
    else h :: dedupedResultsAux t (dedupeKey h :: seen)

/-- `dedupedResults` (page.tsx lines 310-318): keep a hit iff its
dedupe key was not seen before. -/
def dedupedResults (results : List Hit) : List Hit :=
  dedupedResultsAux results []

/-- First-occurrence-per-key filtering as the spec words it: keep
each list head and drop every later hit with the same dedupe key. -/
def keepFirstByKey : List Hit → List Hit
  | [] => []
  | h :: t => h :: keepFirstByKey (t.filter fun x => dedupeKey x != dedupeKey h)
termination_by l => l.length
decreasing_by
  simp only [List.length_cons, Nat.lt_succ_iff]
  exact List.length_filter_le _ _

/-- The sort keys of the toolbar (page.tsx line 137). -/
inductive SortKey where
  | relevance
  | priceAsc
  | priceDesc
  | scoreDesc
  | scoreAsc
deriving DecidableEq, Repr

/-- `h.price ?? Infinity`, the ascending price key. -/
def priceOrInf (h : Hit) : WithTop ℚ :=
  match h.price with
  | none => ⊤
  | some p => (p : WithTop ℚ)

/-- `h.price ?? -Infinity`, the descending price key. -/
def priceOrNegInf (h : Hit) : WithBot ℚ :=
  match h.price with
  | none => ⊥
  | some p => (p : WithBot ℚ)

/-- `h.score ?? 0`, the score key. -/
def scoreOr0 (h : Hit) : ℚ := h.score.getD 0

/-- `sortedResults` (page.tsx lines 320-330).  `Array.prototype.sort`
is stable and places `a` before `b` exactly when the comparator is
negative, keeping order on zero or NaN; a subtraction comparator over
keys in `ℚ ∪ {±Infinity\x7d` (where `Infinity - Infinity = NaN` counts
as a tie) therefore sorts stably by `≤` on those keys.  This is
modelled by the stable `List.mergeSort` with the corresponding
boolean `≤` tests. -/
def sortedResults (sortBy : SortKey) (deduped : List Hit) : List Hit :=
  match sortBy with
  | SortKey.relevance => deduped
  | SortKey.priceAsc => deduped.mergeSort fun a b => decide (priceOrInf a ≤ priceOrInf b)
  | SortKey.priceDesc => deduped.mergeSort fun a b => decide (priceOrNegInf b ≤ priceOrNegInf a)
  | SortKey.scoreDesc => deduped.mergeSort fun a b => decide (scoreOr0 b ≤ scoreOr0 a)
  | SortKey.scoreAsc => deduped.mergeSort fun a b => decide (scoreOr0 a ≤ scoreOr0 b)

/-- The three filter buckets (`LabelBucket` in the source, literally
the strings `Exact`, `Sehr ähnlich`, `Alternative`). -/
inductive LabelBucket where
  | Exact
  | SehrAehnlich
  | Alternative
deriving DecidableEq, Repr

/-- `normalizeBucket` (page.tsx lines 332-333): only the exact label
strings `Exact` and `Sehr ähnlich` are recognized; everything else,
including an absent label, becomes `Alternative`. -/
def normalizeBucket (lbl : Option String) : LabelBucket :=
  if lbl = some "Exact" then LabelBucket.Exact
  else if lbl = some "Sehr ähnlich" then LabelBucket.SehrAehnlich
  else LabelBucket.Alternative

/-- JavaScript `s.includes(q)`: substring test. -/
def jsIncludes (s q : String) : Bool := decide (q.toList <:+: s.toList)

/-- JavaScript `s.trim()`: strip leading and trailing whitespace. -/
def jsTrim (s : String) : String :=
  String.mk (((s.data.dropWhile Char.isWhitespace).reverse.dropWhile
    Char.isWhitespace).reverse)

/-- JavaScript `s.toLowerCase()`: lower-case every character. -/
def jsToLower (s : String) : String := String.mk (s.data.map Char.toLower)

/-- The client-side filter controls.  `labelFilter` is the
bucket-inclusion record; `priceMin` and `priceMax` model
`priceMin !== '' ? parseFloat(priceMin) : undefined` (and likewise
for the max field); `merchantSearch` is the raw merchant query
text. -/
structure FilterState where
  labelFilter : LabelBucket → Bool
  priceMin : Option ℚ
  priceMax : Option ℚ
  merchantSearch : String

/-- `filteredResults` (page.tsx lines 335-347): a hit passes iff its
normalized bucket is enabled, `(price ?? Infinity) >= min` when a
minimum is set, `(price ?? -Infinity) <= max` when a maximum is set,
and the merchant field contains the trimmed lower-cased query when
that is non-empty. -/
def filteredResults (st : FilterState) (sorted : List Hit) : List Hit :=
  let merchantQ := jsToLower (jsTrim st.merchantSearch)
  sorted.filter fun r =>
    let bucket := st.labelFilter (normalizeBucket (some r.label))
    let okMin :=
      match st.priceMin with
      | none => true
      | some m => decide ((m : WithTop ℚ) ≤ priceOrInf r)
    let okMax :=
      match st.priceMax with
      | none => true
      | some m => decide (priceOrNegInf r ≤ (m : WithBot ℚ))
    let okMerchant :=
      if merchantQ = "" then true
      else jsIncludes (jsToLower (r.merchant.getD "")) merchantQ
    bucket && okMin && okMax && okMerchant

/-- `visibleResults` (page.tsx line 349): the first `visibleCount`
filtered hits. -/
def visibleResults (filtered : List Hit) (visibleCount : ℕ) : List Hit :=
  filtered.take visibleCount

/-- `canLoadMore` (page.tsx line 350). -/
def canLoadMore (visibleCount : ℕ) (filtered : List Hit) : Bool :=
  visibleCount < filtered.length

/-- The values `visibleCount` can take: it is initialized and reset
to 12 (page.tsx lines 139, 178, 249, 286) and only ever changed by
`setVisibleCount (n => n + 12)` (page.tsx line 695). -/
inductive VisibleCountReachable : ℕ → Prop
  | init : VisibleCountReachable 12
  | step (n : ℕ) : VisibleCountReachable n → VisibleCountReachable (n + 12)

/-- C1: for every crop selection (either unit, absent coordinates
allowed) and positive rendered and natural dimensions, the resolved
pixel rectangle has width ≥ 1, height ≥ 1, x ≥ 0 and y ≥ 0. -/
theorem toPixelCrop_bounds (c : Crop) (img : ImgElement)
    (hnW : 0 < img.naturalWidth) (hnH : 0 < img.naturalHeight)
    (hrW : 0 < img.width) (hrH : 0 < img.height) :
    1 ≤ (toPixelCrop c img).width ∧ 1 ≤ (toPixelCrop c img).height ∧
      0 ≤ (toPixelCrop c img).x ∧ 0 ≤ (toPixelCrop c img).y := by
  refine ⟨?_, ?_, ?_, ?_⟩ <;> simp [toPixelCrop]

/-- C1 witness: the spec scenario, a 12/12/76/76 percent selection on
a 1000×800 image rendered at 500×400. -/
theorem toPixelCrop_bounds_witness :
    1 ≤ (toPixelCrop ⟨CropUnit.pct, some 12, some 12, some 76, some 76⟩
          ⟨1000, 800, 500, 400, 0, 0⟩).width ∧
    1 ≤ (toPixelCrop ⟨CropUnit.pct, some 12, some 12, some 76, some 76⟩
          ⟨1000, 800, 500, 400, 0, 0⟩).height ∧
    0 ≤ (toPixelCrop ⟨CropUnit.pct, some 12, some 12, some 76, some 76⟩
          ⟨1000, 800, 500, 400, 0, 0⟩).x ∧
    0 ≤ (toPixelCrop ⟨CropUnit.pct, some 12, some 12, some 76, some 76⟩
          ⟨1000, 800, 500, 400, 0, 0⟩).y :=
  toPixelCrop_bounds _ _ (by norm_num) (by norm_num) (by norm_num) (by norm_num)

/-- Rounding to the nearest integer moves a rational by at most one
half. -/
theorem jsRound_abs_sub_le (q : ℚ) : |(jsRound q : ℚ) - q| ≤ 1/2 := by
  rw [abs_le]
  constructor
  · have hlt : q + 1/2 - 1 < ((⌊q + 1/2⌋ : ℤ) : ℚ) := Int.sub_one_lt_floor (q + 1/2)
    simp only [jsRound]
    linarith
  · have hle : ((⌊q + 1/2⌋ : ℤ) : ℚ) ≤ q + 1/2 := Int.floor_le (q + 1/2)
    simp only [jsRound]
    linarith

/-- Rounding a nonnegative rational gives a nonnegative integer. -/
theorem jsRound_nonneg (q : ℚ) (hq : 0 ≤ q) : 0 ≤ jsRound q := by
  refine Int.le_floor.mpr ?_
  push_cast
  linarith

/-- Rounding followed by the `max 1` clamp moves a nonnegative
rational by at most one. -/
theorem jsRound_clampOne_abs_sub_le (q : ℚ) (hq : 0 ≤ q) :
    |((max 1 (jsRound q) : ℤ) : ℚ) - q| ≤ 1 := by
  rcases le_or_lt 1 (jsRound q) with h1 | h1
  · rw [max_eq_right h1]
    exact (jsRound_abs_sub_le q).trans (by norm_num)
  · have h0 : jsRound q = 0 := le_antisymm (by omega) (jsRound_nonneg q hq)
    have hq2 : q < 1/2 := by
      have := Int.lt_floor_add_one (q + 1/2)
      simp only [jsRound] at h0
      rw [h0] at this
      push_cast at this
      linarith
    rw [h0]
    rw [abs_le]
    constructor
    · push_cast
      simp only [max_eq_left (by norm_num : (0:ℚ) ≤ 1)]
      linarith
    · push_cast
      simp only [max_eq_left (by norm_num : (0:ℚ) ≤ 1)]
      linarith

/-- Mapping a pixel-space error bound back through the
percent-space rescaling. -/
theorem scale_abs_bound (W r p t : ℚ) (hW : 0 < W) (h : |r - p| ≤ t) :
    |r / W * 100 - p * 100 / W| ≤ t * 100 / W := by
  have hW0 : W ≠ 0 := ne_of_gt hW
  have e : r / W * 100 - p * 100 / W = (r - p) * (100 / W) := by
    field_simp
    ring
  have hpos : (0:ℚ) < 100 / W := by positivity
  rw [e, abs_mul, abs_of_pos hpos]
  have hmul : |r - p| * (100 / W) ≤ t * (100 / W) :=
    mul_le_mul_of_nonneg_right h (le_of_lt hpos)
  calc |r - p| * (100 / W) ≤ t * (100 / W) := hmul
    _ = t * 100 / W := by ring

/-- A percent coordinate clamped at 0 comes back within half a
natural pixel. -/
theorem percent_roundtrip_origin (W v : ℚ) (hW : 0 < W) (hv : 0 ≤ v) :
    |((max 0 (jsRound (v / 100 * W)) : ℤ) : ℚ) / W * 100 - v| ≤ 50 / W := by
  have hp : 0 ≤ v / 100 * W := by positivity
  have h0 : max 0 (jsRound (v / 100 * W)) = jsRound (v / 100 * W) :=
    max_eq_right (jsRound_nonneg _ hp)
  rw [h0]
  have hb := scale_abs_bound W ((jsRound (v / 100 * W) : ℤ) : ℚ) (v / 100 * W) (1/2) hW
    (jsRound_abs_sub_le _)
  have e1 : v / 100 * W * 100 / W = v := by
    field_simp
  have e2 : (1/2 : ℚ) * 100 / W = 50 / W := by ring
  rw [e1, e2] at hb
  exact hb

/-- A percent extent clamped at 1 comes back within one natural
pixel. -/
theorem percent_roundtrip_extent (W v : ℚ) (hW : 0 < W) (hv : 0 ≤ v) :
    |((max 1 (jsRound (v / 100 * W)) : ℤ) : ℚ) / W * 100 - v| ≤ 100 / W := by
  have hp : 0 ≤ v / 100 * W := by positivity
  have hb := scale_abs_bound W ((max 1 (jsRound (v / 100 * W)) : ℤ) : ℚ) (v / 100 * W) 1 hW
    (jsRound_clampOne_abs_sub_le _ hp)
  have e1 : v / 100 * W * 100 / W = v := by
    field_simp
  have e2 : (1 : ℚ) * 100 / W = 100 / W := by ring
  rw [e1, e2] at hb
  exact hb

/-- C2: for a percentage-origin selection with in-range coordinates
and positive natural dimensions, converting to pixel space and back
recovers each coordinate within the perturbation that rounding to
whole natural pixels introduces: half a pixel for the origin (whose
`max 0` clamp is inactive on in-range input) and, because of the
`max 1` clamp on extents, at most one pixel for width and height,
measured in percent units. -/
theorem toPercent_toPixel_roundtrip (img : ImgElement) (x y w h : ℚ)
    (hW : 0 < img.naturalWidth) (hH : 0 < img.naturalHeight)
    (hx0 : 0 ≤ x) (hy0 : 0 ≤ y) (hw0 : 0 ≤ w) (hh0 : 0 ≤ h)
    (hx1 : x ≤ 100) (hy1 : y ≤ 100) (hw1 : w ≤ 100) (hh1 : h ≤ 100) :
    |(pixelToPercentCropWithSize
        (toPixelCrop ⟨CropUnit.pct, some x, some y, some w, some h⟩ img)
        img.naturalWidth img.naturalHeight).x.getD 0 - x| ≤ 50 / img.naturalWidth ∧
    |(pixelToPercentCropWithSize
        (toPixelCrop ⟨CropUnit.pct, some x, some y, some w, some h⟩ img)
        img.naturalWidth img.naturalHeight).y.getD 0 - y| ≤ 50 / img.naturalHeight ∧
    |(pixelToPercentCropWithSize
        (toPixelCrop ⟨CropUnit.pct, some x, some y, some w, some h⟩ img)
        img.naturalWidth img.naturalHeight).width.getD 0 - w| ≤ 100 / img.naturalWidth ∧
    |(pixelToPercentCropWithSize
        (toPixelCrop ⟨CropUnit.pct, some x, some y, some w, some h⟩ img)
        img.naturalWidth img.naturalHeight).height.getD 0 - h| ≤ 100 / img.naturalHeight := by
  refine ⟨?_, ?_, ?_, ?_⟩
  · exact percent_roundtrip_origin img.naturalWidth x hW hx0
  · exact percent_roundtrip_origin img.naturalHeight y hH hy0
  · exact percent_roundtrip_extent img.naturalWidth w hW hw0
  · exact percent_roundtrip_extent img.naturalHeight h hH hh0

/-- C2 witness: the spec scenario selection 12/12/76/76 percent on a
1000×800 image. -/
theorem toPercent_toPixel_roundtrip_witness :
    |(pixelToPercentCropWithSize
        (toPixelCrop ⟨CropUnit.pct, some 12, some 12, some 76, some 76⟩
          ⟨1000, 800, 500, 400, 0, 0⟩) 1000 800).x.getD 0 - 12| ≤ 50 / 1000 ∧
    |(pixelToPercentCropWithSize
        (toPixelCrop ⟨CropUnit.pct, some 12, some 12, some 76, some 76⟩
          ⟨1000, 800, 500, 400, 0, 0⟩) 1000 800).y.getD 0 - 12| ≤ 50 / 800 ∧
    |(pixelToPercentCropWithSize
        (toPixelCrop ⟨CropUnit.pct, some 12, some 12, some 76, some 76⟩
          ⟨1000, 800, 500, 400, 0, 0⟩) 1000 800).width.getD 0 - 76| ≤ 100 / 1000 ∧
    |(pixelToPercentCropWithSize
        (toPixelCrop ⟨CropUnit.pct, some 12, some 12, some 76, some 76⟩
          ⟨1000, 800, 500, 400, 0, 0⟩) 1000 800).height.getD 0 - 76| ≤ 100 / 800 :=
  toPercent_toPixel_roundtrip ⟨1000, 800, 500, 400, 0, 0⟩ 12 12 76 76
    (by norm_num) (by norm_num) (by norm_num) (by norm_num) (by norm_num) (by norm_num)
    (by norm_num) (by norm_num) (by norm_num) (by norm_num)

/-- The candidate loop always fetches the first path of a non-empty
candidate list. -/
theorem tryPaths_snd_cons (net : String → FetchResult) (base p : String)
    (rest : List String) (lt : String) :
    ∃ l, (tryPaths net base (p :: rest) lt).2 = p :: l := by
  simp only [tryPaths]
  cases hnet : net (base ++ p) with
  | netFail => exact ⟨[], rfl⟩
  | resp r =>
    by_cases h1 : respOk r
    · simp [h1]
    · by_cases h2 : r.status = 503
      · simp [h1, h2]
      · by_cases h3 : r.status = 404
        · simp [h1, h2, h3]
        · simp [h1, h2, h3]

/-- With a successfully resolved non-empty base, the search is the
candidate loop started on the fixed path list with an empty
diagnostic. -/
theorem runSearch_eq_tryPaths (a b : Option String) (v : String)
    (net : String → FetchResult) (hv : resolveBase a b = some v) (hne : v ≠ "") :
    runSearchByUpload a b net = tryPaths net v searchPaths "" := by
  simp only [runSearchByUpload, hv, if_neg hne]

/-- C3 counterexample: with the first variable set to the empty
string and the second to a non-empty address, the code fails with
ConfigError and fetches nothing, whereas resolution by first
non-empty value, as the claim states it, would pick the second
variable. -/
theorem config_firstNonEmpty_counterexample :
    runSearchByUpload (some "") (some "http://backend")
        (fun _ => FetchResult.netFail) = (Except.error SearchError.configError, []) ∧
    resolveBaseSpec (some "") (some "http://backend") = some "http://backend" := by
  constructor
  · rfl
  · rfl

/-- C3 amended: the base address is the first of the two variables
that is present (nullish coalescing), regardless of emptiness; the
search fails with ConfigError, fetching nothing, exactly when both
variables are absent or the value taken is the empty string. -/
theorem runSearchByUpload_config (a b : Option String) (net : String → FetchResult) :
    runSearchByUpload none none net = (Except.error SearchError.configError, []) ∧
    (∀ v : String, v ≠ "" →
      runSearchByUpload (some v) b net = tryPaths net v searchPaths "") ∧
    (∀ v : String, v ≠ "" →
      runSearchByUpload none (some v) net = tryPaths net v searchPaths "") ∧
    (runSearchByUpload a b net = (Except.error SearchError.configError, []) ↔
      resolveBase a b = none ∨ resolveBase a b = some "") := by
  refine ⟨rfl, ?_, ?_, ?_⟩
  · intro v hv
    exact runSearch_eq_tryPaths (some v) b v net rfl hv
  · intro v hv
    exact runSearch_eq_tryPaths none (some v) v net rfl hv
  · constructor
    · intro heq
      cases ha : resolveBase a b with
      | none => exact Or.inl rfl
      | some v =>
        by_cases hv : v = ""
        · exact Or.inr (congrArg some hv)
        · exfalso
          rw [runSearch_eq_tryPaths a b v net ha hv] at heq
          obtain ⟨l, hl⟩ :=
            tryPaths_snd_cons net v "/search/by-upload" ["/search/image"] ""
          have hsnd := congrArg Prod.snd heq
          rw [show searchPaths = "/search/by-upload" :: ["/search/image"] from rfl] at hsnd
          rw [hl] at hsnd
          simp at hsnd
    · intro hres
      cases hres with
      | inl hn => simp only [runSearchByUpload, hn]
      | inr he => simp [runSearchByUpload, he]

/-- C3 witness: both variables absent gives ConfigError with no
fetch, and a non-empty first variable enters the candidate loop. -/
theorem runSearchByUpload_config_witness :
    runSearchByUpload none none (fun _ => FetchResult.netFail)
        = (Except.error SearchError.configError, []) ∧
    runSearchByUpload (some "http://b") none (fun _ => FetchResult.netFail)
        = tryPaths (fun _ => FetchResult.netFail) "http://b" searchPaths "" :=
  ⟨(runSearchByUpload_config none none (fun _ => FetchResult.netFail)).1,
    (runSearchByUpload_config (some "http://b") none
      (fun _ => FetchResult.netFail)).2.1 "http://b" (by decide)⟩

/-- C4: a 503 answer short-circuits the candidate list — when the
first candidate answers 503 the search fails at once with
ServiceUnavailable and the second path is never fetched, and when
the first answers 404 and the second 503 the fetched paths are
exactly the two candidates, again ending in ServiceUnavailable. -/
theorem search_503_short_circuits (a b : Option String) (v : String)
    (net : String → FetchResult) (r0 r1 : HttpResp)
    (hv : resolveBase a b = some v) (hne : v ≠ "") :
    (net (v ++ "/search/by-upload") = FetchResult.resp r0 → r0.status = 503 →
      runSearchByUpload a b net =
        (Except.error SearchError.serviceUnavailable, ["/search/by-upload"])) ∧
    (net (v ++ "/search/by-upload") = FetchResult.resp r0 → r0.status = 404 →
      net (v ++ "/search/image") = FetchResult.resp r1 → r1.status = 503 →
      runSearchByUpload a b net =
        (Except.error SearchError.serviceUnavailable,
          ["/search/by-upload", "/search/image"])) := by
  rw [runSearch_eq_tryPaths a b v net hv hne]
  constructor
  · intro h0 hs
    have hOk : respOk r0 = false := by
      simp only [respOk, hs]
      decide
    simp [tryPaths, searchPaths, h0, hOk, hs]
  · intro h0 hs0 h1 hs1
    have hOk0 : respOk r0 = false := by
      simp only [respOk, hs0]
      decide
    have hOk1 : respOk r1 = false := by
      simp only [respOk, hs1]
      decide
    simp [tryPaths, searchPaths, h0, hOk0, hs0, h1, hOk1, hs1]

/-- C4 witness: a concrete network whose first candidate answers
503; the search fails with ServiceUnavailable having fetched only
the first path. -/
theorem search_503_short_circuits_witness :
    runSearchByUpload (some "B") none
        (fun u => if u = "B/search/by-upload"
          then FetchResult.resp ⟨503, "Service Unavailable", "busy", ⟨none⟩⟩
          else FetchResult.netFail)
      = (Except.error SearchError.serviceUnavailable, ["/search/by-upload"]) :=
  (search_503_short_circuits (some "B") none "B"
    (fun u => if u = "B/search/by-upload"
      then FetchResult.resp ⟨503, "Service Unavailable", "busy", ⟨none⟩⟩
      else FetchResult.netFail)
    ⟨503, "Service Unavailable", "busy", ⟨none⟩⟩
    ⟨503, "Service Unavailable", "busy", ⟨none⟩⟩
    rfl (by decide)).1 (by decide) rfl

/-- C5: a 404 remembers the response body and falls through to the
next candidate — if both candidates answer 404 the search fails with
NotFoundError carrying the second (last) body; any other non-2xx,
non-503 status fails at once with HttpError carrying status, status
text and body, whether it occurs at the first candidate or at the
second after a 404. -/
theorem search_404_fallback (a b : Option String) (v : String)
    (net : String → FetchResult) (r0 r1 : HttpResp)
    (hv : resolveBase a b = some v) (hne : v ≠ "")
    (h0 : net (v ++ "/search/by-upload") = FetchResult.resp r0) :
    (r0.status = 404 → net (v ++ "/search/image") = FetchResult.resp r1 →
      r1.status = 404 →
      runSearchByUpload a b net =
        (Except.error (SearchError.notFoundAll r1.body),
          ["/search/by-upload", "/search/image"])) ∧
    (respOk r0 = false → r0.status ≠ 503 → r0.status ≠ 404 →
      runSearchByUpload a b net =
        (Except.error (SearchError.httpError r0.status r0.statusText r0.body),
          ["/search/by-upload"])) ∧
    (r0.status = 404 → net (v ++ "/search/image") = FetchResult.resp r1 →
      respOk r1 = false → r1.status ≠ 503 → r1.status ≠ 404 →
      runSearchByUpload a b net =
        (Except.error (SearchError.httpError r1.status r1.statusText r1.body),
          ["/search/by-upload", "/search/image"])) := by
  rw [runSearch_eq_tryPaths a b v net hv hne]
  refine ⟨?_, ?_, ?_⟩
  · intro hs0 h1 hs1
    have hOk0 : respOk r0 = false := by
      simp only [respOk, hs0]
      decide
    have hOk1 : respOk r1 = false := by
      simp only [respOk, hs1]
      decide
    simp [tryPaths, searchPaths, h0, hOk0, hs0, h1, hOk1, hs1]
  · intro hOk0 h503 h404
    simp [tryPaths, searchPaths, h0, hOk0, h503, h404]
  · intro hs0 h1 hOk1 h503 h404
    have hOk0 : respOk r0 = false := by
      simp only [respOk, hs0]
      decide
    simp [tryPaths, searchPaths, h0, hOk0, hs0, h1, hOk1, h503, h404]

/-- C5 witness: a concrete network answering 404 with body `b1` on
the first candidate and 404 with body `b2` on the second; the search
fails with NotFoundError carrying `b2` after fetching both paths. -/
theorem search_404_fallback_witness :
    runSearchByUpload (some "B") none
        (fun u => if u = "B/search/by-upload"
          then FetchResult.resp ⟨404, "Not Found", "b1", ⟨none⟩⟩
          else if u = "B/search/image"
          then FetchResult.resp ⟨404, "Not Found", "b2", ⟨none⟩⟩
          else FetchResult.netFail)
      = (Except.error (SearchError.notFoundAll "b2"),
          ["/search/by-upload", "/search/image"]) :=
  (search_404_fallback (some "B") none "B"
    (fun u => if u = "B/search/by-upload"
      then FetchResult.resp ⟨404, "Not Found", "b1", ⟨none⟩⟩
      else if u = "B/search/image"
      then FetchResult.resp ⟨404, "Not Found", "b2", ⟨none⟩⟩
      else FetchResult.netFail)
    ⟨404, "Not Found", "b1", ⟨none⟩⟩
    ⟨404, "Not Found", "b2", ⟨none⟩⟩
    rfl (by decide) (by decide)).1 rfl (by decide) rfl

/-- The explicit-`seen` dedupe pass equals nub-style
first-occurrence filtering of the hits whose key is not yet seen. -/
theorem dedupedResultsAux_eq_keepFirst (l : List Hit) :
    ∀ seen : List String,
      dedupedResultsAux l seen
        = keepFirstByKey (l.filter fun x => decide (¬ dedupeKey x ∈ seen)) := by
  induction l with
  | nil =>
    intro seen
    simp [dedupedResultsAux, keepFirstByKey]
  | cons h t ih =>
    intro seen
    by_cases hm : dedupeKey h ∈ seen
    · rw [show dedupedResultsAux (h :: t) seen = dedupedResultsAux t seen from
        if_pos hm]
      rw [ih seen]
      congr 1
      rw [List.filter_cons]
      simp [hm]
    · rw [show dedupedResultsAux (h :: t) seen
            = h :: dedupedResultsAux t (dedupeKey h :: seen) from if_neg hm]
      rw [ih (dedupeKey h :: seen)]
      have hcons : (h :: t).filter (fun x => decide (¬ dedupeKey x ∈ seen))
          = h :: t.filter fun x => decide (¬ dedupeKey x ∈ seen) := by
        rw [List.filter_cons]
        simp [hm]
      rw [hcons]
      rw [show keepFirstByKey (h :: t.filter fun x => decide (¬ dedupeKey x ∈ seen))
            = h :: keepFirstByKey ((t.filter fun x => decide (¬ dedupeKey x ∈ seen)).filter
                fun x => dedupeKey x != dedupeKey h) from by
        simp [keepFirstByKey]]
      congr 1
      congr 1
      rw [List.filter_filter]
      apply List.filter_congr
      intro x _
      simp [List.mem_cons, not_or, Bool.and_comm, bne]
      by_cases hxy : dedupeKey x = dedupeKey h <;> simp [hxy]

/-- C6 counterexample: two hits whose key triples differ — deeplinks
`a-b` with no image versus `a` with image `b-` — share the
dash-joined key string `1-a-b-`, so the second is conflated with the
first even though the triples disagree, refuting the only-if
direction of the claim. -/
theorem dedupe_triple_counterexample :
    dedupedResults
        [⟨1, none, "", none, none, none, none, some "a-b", none⟩,
         ⟨1, none, "", none, none, none, none, some "a", some "b-"⟩]
      = [⟨1, none, "", none, none, none, none, some "a-b", none⟩] ∧
    dedupeTriple ⟨1, none, "", none, none, none, none, some "a-b", none⟩ ≠
      dedupeTriple ⟨1, none, "", none, none, none, none, some "a", some "b-"⟩ := by
  constructor
  · decide
  · decide

/-- C6 amended: the dedupe stage keeps exactly the first occurrence,
in input order, of each dash-joined key string
`product_id-deeplink-image_url` (absent fields as empty strings):
hits are conflated exactly on key-string equality.  Agreement on the
(identifier, link, image) triple still implies conflation, but the
converse direction of the claim fails because the dash join is not
injective in the triple. -/
theorem dedupedResults_keepFirst (hits : List Hit) :
    dedupedResults hits = keepFirstByKey hits ∧
    ∀ g1 g2 : Hit, dedupeTriple g1 = dedupeTriple g2 → dedupeKey g1 = dedupeKey g2 := by
  constructor
  · rw [dedupedResults, dedupedResultsAux_eq_keepFirst hits []]
    congr 1
    simp
  · intro g1 g2 hg
    have h1 : g1.product_id = g2.product_id := congrArg Prod.fst hg
    have h2 : g1.deeplink.getD "" = g2.deeplink.getD "" :=
      congrArg (fun t => t.2.1) hg
    have h3 : g1.image_url.getD "" = g2.image_url.getD "" :=
      congrArg (fun t => t.2.2) hg
    simp only [dedupeKey, h1, h2, h3]

/-- C6 witness: the amended statement applied to a one-element list
and a pair of triple-equal hits. -/
theorem dedupedResults_keepFirst_witness :
    dedupedResults [⟨1, none, "Exact", none, some 5, none, none, none, none⟩]
        = keepFirstByKey [⟨1, none, "Exact", none, some 5, none, none, none, none⟩] ∧
    dedupeKey ⟨1, none, "Exact", none, some 5, none, none, none, none⟩
        = dedupeKey ⟨1, none, "Exact", none, some 5, none, none, none, none⟩ :=
  ⟨(dedupedResults_keepFirst
      [⟨1, none, "Exact", none, some 5, none, none, none, none⟩]).1,
    (dedupedResults_keepFirst
      [⟨1, none, "Exact", none, some 5, none, none, none, none⟩]).2
      ⟨1, none, "Exact", none, some 5, none, none, none, none⟩
      ⟨1, none, "Exact", none, some 5, none, none, none, none⟩ rfl⟩

/-- Helper: a hit whose ascending price key is the top sentinel has
no price. -/
theorem priceOrInf_eq_top_iff (h : Hit) : priceOrInf h = ⊤ ↔ h.price = none := by
  cases hp : h.price with
  | none => simp [priceOrInf, hp]
  | some p => simp [priceOrInf, hp]

/-- Helper: a hit whose descending price key is the bottom sentinel
has no price. -/
theorem priceOrNegInf_eq_bot_iff (h : Hit) : priceOrNegInf h = ⊥ ↔ h.price = none := by
  cases hp : h.price with
  | none => simp [priceOrNegInf, hp]
  | some p => simp [priceOrNegInf, hp]

/-- C7: under both price sort keys, every priceless hit is ordered
after all priced hits — missing price acts as the +infinity sentinel
when ascending and as the -infinity sentinel when descending, so in
the sorted output a priceless hit is never followed by a priced
one. -/
theorem priceless_sorted_last (hits : List Hit) :
    (sortedResults SortKey.priceAsc hits).Pairwise
      (fun a b => a.price = none → b.price = none) ∧
    (sortedResults SortKey.priceDesc hits).Pairwise
      (fun a b => a.price = none → b.price = none) := by
  constructor
  · have hs : (hits.mergeSort fun a b => decide (priceOrInf a ≤ priceOrInf b)).Pairwise
        (fun a b => (decide (priceOrInf a ≤ priceOrInf b)) = true) := by
      apply List.sorted_mergeSort
      · intro a b c hab hbc
        simp only [decide_eq_true_eq] at hab hbc ⊢
        exact le_trans hab hbc
      · intro a b
        simp only [Bool.or_eq_true, decide_eq_true_eq]
        exact le_total _ _
    rw [show sortedResults SortKey.priceAsc hits
        = hits.mergeSort (fun a b => decide (priceOrInf a ≤ priceOrInf b)) from rfl]
    refine hs.imp ?_
    intro a b hab hpa
    simp only [decide_eq_true_eq] at hab
    rw [(priceOrInf_eq_top_iff a).mpr hpa] at hab
    exact (priceOrInf_eq_top_iff b).mp (top_le_iff.mp hab)
  · have hs : (hits.mergeSort fun a b => decide (priceOrNegInf b ≤ priceOrNegInf a)).Pairwise
        (fun a b => (decide (priceOrNegInf b ≤ priceOrNegInf a)) = true) := by
      apply List.sorted_mergeSort
      · intro a b c hab hbc
        simp only [decide_eq_true_eq] at hab hbc ⊢
        exact le_trans hbc hab
      · intro a b
        simp only [Bool.or_eq_true, decide_eq_true_eq]
        exact le_total _ _
    rw [show sortedResults SortKey.priceDesc hits
        = hits.mergeSort (fun a b => decide (priceOrNegInf b ≤ priceOrNegInf a)) from rfl]
    refine hs.imp ?_
    intro a b hab hpa
    simp only [decide_eq_true_eq] at hab
    rw [(priceOrNegInf_eq_bot_iff a).mpr hpa] at hab
    exact (priceOrNegInf_eq_bot_iff b).mp (le_bot_iff.mp hab)

/-- C7 witness: a priced and a priceless hit through both price
orderings. -/
theorem priceless_sorted_last_witness :
    (sortedResults SortKey.priceAsc
        [⟨1, none, "Exact", none, none, none, none, none, none⟩,
         ⟨2, none, "Exact", none, some 10, none, none, none, none⟩]).Pairwise
      (fun a b => a.price = none → b.price = none) ∧
    (sortedResults SortKey.priceDesc
        [⟨1, none, "Exact", none, none, none, none, none, none⟩,
         ⟨2, none, "Exact", none, some 10, none, none, none, none⟩]).Pairwise
      (fun a b => a.price = none → b.price = none) :=
  priceless_sorted_last
    [⟨1, none, "Exact", none, none, none, none, none, none⟩,
     ⟨2, none, "Exact", none, some 10, none, none, none, none⟩]

/-- C8: with the default filter state — every bucket enabled, no
price bounds, and a merchant query that trims to the empty string —
the filter stage returns the sorted sequence unchanged. -/
theorem filteredResults_default_identity (st : FilterState) (sorted : List Hit)
    (hb : ∀ b, st.labelFilter b = true)
    (hmin : st.priceMin = none) (hmax : st.priceMax = none)
    (hm : jsTrim st.merchantSearch = "") :
    filteredResults st sorted = sorted := by
  have hq : jsToLower (jsTrim st.merchantSearch) = "" := by
    rw [hm]
    rfl
  rw [filteredResults]
  simp only [hq, hmin, hmax]
  refine List.filter_eq_self.mpr ?_
  intro r _
  simp [hb]

/-- C8 witness: an all-whitespace merchant query and default flags
leave a concrete one-hit list unchanged. -/
theorem filteredResults_default_identity_witness :
    filteredResults ⟨fun _ => true, none, none, "  "⟩
        [⟨1, some 1, "Exact", none, some 5, none, some "Zalando", none, none⟩]
      = [⟨1, some 1, "Exact", none, some 5, none, some "Zalando", none, none⟩] :=
  filteredResults_default_identity ⟨fun _ => true, none, none, "  "⟩
    [⟨1, some 1, "Exact", none, some 5, none, some "Zalando", none, none⟩]
    (fun _ => rfl) rfl rfl (by decide)

/-- C9: every reachable pagination cursor is at least 12 and a
multiple of 12 (it starts at 12 and only ever steps by 12); the
visible slice has exactly `min cursor length` elements — in
particular never more than either bound — and the load-more flag
holds exactly when the cursor is strictly below the filtered
length. -/
theorem pagination_props (n : ℕ) (filtered : List Hit)
    (hn : VisibleCountReachable n) :
    12 ≤ n ∧ 12 ∣ n ∧
    (visibleResults filtered n).length = min n filtered.length ∧
    (canLoadMore n filtered = true ↔ n < filtered.length) := by
  refine ⟨?_, ?_, ?_, ?_⟩
  · induction hn with
    | init => exact le_refl 12
    | step m hm ih => omega
  · induction hn with
    | init => exact dvd_refl 12
    | step m hm ih => exact Nat.dvd_add ih (dvd_refl 12)
  · rw [visibleResults]
    exact List.length_take n filtered
  · rw [canLoadMore]
    exact decide_eq_true_iff

/-- C9 witness: the initial cursor on an empty filtered list. -/
theorem pagination_props_witness :
    12 ≤ 12 ∧ 12 ∣ 12 ∧
    (visibleResults [] 12).length = min 12 ([] : List Hit).length ∧
    (canLoadMore 12 [] = true ↔ 12 < ([] : List Hit).length) :=
  pagination_props 12 [] VisibleCountReachable.init

/-- C10: bucket normalization recognizes exactly the two label
strings `Exact` and `Sehr ähnlich`; every other label — the spec
enum name `VerySimilar`, casing variants, and an absent label —
normalizes to the Alternative bucket. -/
theorem normalizeBucket_characterization : ∀ lbl : Option String,
    (normalizeBucket lbl = LabelBucket.Exact ↔ lbl = some "Exact") ∧
    (normalizeBucket lbl = LabelBucket.SehrAehnlich ↔ lbl = some "Sehr ähnlich") ∧
    (normalizeBucket lbl = LabelBucket.Alternative ↔
      (lbl ≠ some "Exact" ∧ lbl ≠ some "Sehr ähnlich")) ∧
    normalizeBucket (some "VerySimilar") = LabelBucket.Alternative ∧
    normalizeBucket (some "exact") = LabelBucket.Alternative ∧
    normalizeBucket (some "EXACT") = LabelBucket.Alternative ∧
    normalizeBucket (some "Sehr Ähnlich") = LabelBucket.Alternative ∧
    normalizeBucket none = LabelBucket.Alternative := by
  intro lbl
  refine ⟨?_, ?_, ?_, by decide, by decide, by decide, by decide, rfl⟩
  · simp only [normalizeBucket]
    split_ifs <;> simp_all
  · simp only [normalizeBucket]
    split_ifs <;> simp_all
  · simp only [normalizeBucket]
    split_ifs <;> simp_all

/-- C10 witness: the characterization instantiated at the label
`Exact`. -/
theorem normalizeBucket_characterization_witness :
    (normalizeBucket (some "Exact") = LabelBucket.Exact ↔
      (some "Exact" : Option String) = some "Exact") ∧
    (normalizeBucket (some "Exact") = LabelBucket.SehrAehnlich ↔
      (some "Exact" : Option String) = some "Sehr ähnlich") ∧
    (normalizeBucket (some "Exact") = LabelBucket.Alternative ↔
      ((some "Exact" : Option String) ≠ some "Exact" ∧
        (some "Exact" : Option String) ≠ some "Sehr ähnlich")) ∧
    normalizeBucket (some "VerySimilar") = LabelBucket.Alternative ∧
    normalizeBucket (some "exact") = LabelBucket.Alternative ∧
    normalizeBucket (some "EXACT") = LabelBucket.Alternative ∧
    normalizeBucket (some "Sehr Ähnlich") = LabelBucket.Alternative ∧
    normalizeBucket none = LabelBucket.Alternative :=
  normalizeBucket_characterization (some "Exact")

end CloFind
